import Mathlib

/-!
Verification development for the openrelik plaso worker.

The definitions below are a shallow embedding of the worker source files
(src/utils.py, src/log2timeline.py, src/psort.py, src/image_export.py).
Pure Python functions become Lean functions; effects of the Celery tasks
(subprocess runs, filesystem scans, path allocation by the external
output-file helper) are passed in as explicit oracle arguments, and raised
Python exceptions become Except.error values.
-/

namespace PlasoWorker

/-! ### Python string primitives -/

/-- Splitter for Python str.split with no arguments: split on runs of
whitespace, discarding empty pieces. The accumulator holds the current
token in reverse. -/
def splitWsAux : List Char → List Char → List String
  | [], acc => if acc.isEmpty then [] else [acc.reverse.asString]
  | c :: rest, acc =>
    if c.isWhitespace then
      if acc.isEmpty then splitWsAux rest []
      else acc.reverse.asString :: splitWsAux rest []
    else splitWsAux rest (c :: acc)

/-- Python str.split() (no separator argument). -/
def pySplitWs (s : String) : List String :=
  splitWsAux s.toList []

/-- Python str.splitlines for the line separators that occur in captured
process output: a final piece is emitted only when nonempty, matching the
absence of a trailing empty line in Python. -/
def splitlinesAux : List Char → List Char → List String
  | [], acc => if acc.isEmpty then [] else [acc.reverse.asString]
  | '\r' :: '\n' :: rest, acc => acc.reverse.asString :: splitlinesAux rest []
  | '\n' :: rest, acc => acc.reverse.asString :: splitlinesAux rest []
  | '\r' :: rest, acc => acc.reverse.asString :: splitlinesAux rest []
  | c :: rest, acc => splitlinesAux rest (c :: acc)

/-- Python str.splitlines(). -/
def pySplitlines (s : String) : List String :=
  splitlinesAux s.toList []

/-- Python str.rstrip() with no arguments: remove trailing whitespace. -/
def pyRstrip (s : String) : String :=
  (s.toList.reverse.dropWhile Char.isWhitespace).reverse.asString

/-- Python str.strip with a colon argument: remove leading and trailing
colon characters. -/
def pyStripColons (s : String) : String :=
  (((s.toList.dropWhile (· = ':')).reverse.dropWhile (· = ':')).reverse).asString

/-- Python str.lower(), character by character. -/
def pyToLower (s : String) : String :=
  (s.toList.map Char.toLower).asString

/-- Python str.upper(), character by character. -/
def pyToUpper (s : String) : String :=
  (s.toList.map Char.toUpper).asString

/-- Digits of a decimal numeral; none when empty or a non-digit occurs. -/
def decDigits (cs : List Char) : Option Nat :=
  if cs.isEmpty then none
  else cs.foldl
    (fun acc? c => acc?.bind
      (fun acc => if c.isDigit then some (acc * 10 + (c.toNat - 48)) else none))
    (some 0)

/-- Python int(...) on a token: an optional sign followed by decimal
digits; none models the raised ValueError. Digit-grouping underscores are
not modelled, they cannot occur in whitespace-split status tokens. -/
def pyInt? (s : String) : Option Int :=
  match s.toList with
  | '-' :: rest => (decDigits rest).map (fun n => -(n : Int))
  | '+' :: rest => (decDigits rest).map (fun n => (n : Int))
  | cs => (decDigits cs).map (fun n => (n : Int))

/-- Python " ".join(...). -/
def joinSpace (l : List String) : String :=
  String.intercalate " " l

/-- Python ",".join(...). -/
def commaJoin (l : List String) : String :=
  String.intercalate "," l

/-! ### The status parser (src/utils.py, log2timeline_status_to_dict) -/

/-- The parsed status mapping: the single top level key "tasks" holding
counter name to integer entries in Python dict insertion order. -/
structure StatusDict where
  tasks : List (String × Int)
deriving DecidableEq

/-- Python dict assignment d[k] = v: update the existing entry in place,
otherwise append. -/
def dictInsert : List (String × Int) → String → Int → List (String × Int)
  | [], k, v => [(k, v)]
  | p :: rest, k, v =>
    if p.1 = k then (k, v) :: rest else p :: dictInsert rest k v

/-- Python slice l[::2]: elements at even indices. -/
def everyOther : List α → List α
  | [] => []
  | [a] => [a]
  | a :: _ :: rest => a :: everyOther rest

/-- zip(items[::2], items[1::2]) from the parser source. -/
def statusPairs (items : List String) : List (String × String) :=
  (everyOther items).zip (everyOther (items.drop 1))

/-- The parser loop body: for each (name, value) token pair, strip colons
from the name, lower it, convert the value with int(...) and assign into
the dict; a conversion failure aborts the whole parse. -/
def insertPairs : List (String × Int) → List (String × String) → Option (List (String × Int))
  | d, [] => some d
  | d, p :: rest =>
    match pyInt? p.2 with
    | none => none
    | some v => insertPairs (dictInsert d (pyToLower (pyStripColons p.1)) v) rest

/-- The parser applied to the token list that remains after the header
token has been discarded. -/
def parseStatusTokens (items : List String) : Option StatusDict :=
  (insertPairs [] (statusPairs items)).map StatusDict.mk

/-- log2timeline_status_to_dict from src/utils.py: split on whitespace,
drop the first token, then fill the "tasks" dict from the remaining
alternating (name, value) tokens. -/
def log2timeline_status_to_dict (s : String) : Option StatusDict :=
  parseStatusTokens ((pySplitWs s).drop 1)

/-- Alternating name and value tokens, the shape the spec calls a
well-formed status body. -/
def interleavePairs : List (String × String) → List String
  | [] => []
  | p :: rest => p.1 :: p.2 :: interleavePairs rest

/-- One well-formed status entry: the raw name token, the raw value
token, and the integer value the value token denotes. -/
structure StatusItem where
  nameTok : String
  valTok : String
  value : Int
deriving DecidableEq

/-- The dict key the parser derives from a name token. -/
def statusItemKey (it : StatusItem) : String :=
  pyToLower (pyStripColons it.nameTok)

/-- The raw token pairs of a list of entries. -/
def statusItemTokens (l : List StatusItem) : List (String × String) :=
  l.map (fun it => (it.nameTok, it.valTok))

/-- The parsed dict entries of a list of entries. -/
def statusItemEntries (l : List StatusItem) : List (String × Int) :=
  l.map (fun it => (statusItemKey it, it.value))

/-! ### The log classifier (src/utils.py, process_plaso_cli_logs) -/

/-- A regex word character: [A-Za-z0-9_]. -/
def isWordChar (c : Char) : Bool :=
  c.isAlphanum || c = '_'

/-- Matching the anchored pattern for a line "[LEVEL] message": an opening
bracket, one or more word characters, a closing bracket, optional
whitespace, then the message. -/
def matchHeader : List Char → Option (String × String)
  | '[' :: rest =>
    let lvl := rest.takeWhile isWordChar
    if lvl.isEmpty then none
    else
      match rest.dropWhile isWordChar with
      | ']' :: msgPart => some (lvl.asString, (msgPart.dropWhile Char.isWhitespace).asString)
      | _ => none
  | _ => none

/-- logging.getLevelName on an upper-cased tag: the fixed name-to-level
table of the Python logging module; none models the not-an-int fallback
string return. -/
def getLevelNum (s : String) : Option Nat :=
  if s = "CRITICAL" then some 50
  else if s = "FATAL" then some 50
  else if s = "ERROR" then some 40
  else if s = "WARN" then some 30
  else if s = "WARNING" then some 30
  else if s = "INFO" then some 20
  else if s = "DEBUG" then some 10
  else if s = "NOTSET" then some 0
  else none

/-- The per-line loop of process_plaso_cli_logs, carrying the current
level; emissions are returned as (level, message) records of the logger
sink. -/
def classifyLines : List String → Nat → List (Nat × String)
  | [], _ => []
  | line :: rest, cur =>
    let line := pyRstrip line
    if line = "" then classifyLines rest cur
    else
      match matchHeader line.toList with
      | some (lvl, msg) =>
        let newCur :=
          match getLevelNum (pyToUpper lvl) with
          | some n => n
          | none => cur
        (newCur, msg) :: classifyLines rest newCur
      | none => (cur, line) :: classifyLines rest cur

/-- process_plaso_cli_logs from src/utils.py: split the captured output
into lines and replay each onto the logger; the initial current level is
logging.INFO = 20. -/
def process_plaso_cli_logs (cli_logs : String) : List (Nat × String) :=
  classifyLines (pySplitlines cli_logs) 20

/-! ### is_ewf_files (src/utils.py) -/

/-- An input file dictionary as handed to the tasks. -/
structure InputFile where
  path : String
  display_name : String
deriving DecidableEq

/-- Python str.endswith via character lists. -/
def pyEndsWith (s suffix : String) : Bool :=
  decide (suffix.toList.reverse <+: s.toList.reverse)

/-- The tuple of EWF extensions ".e01" .. ".e99". -/
def ewfExtensions : List String :=
  (List.range 99).map
    (fun i => ".e" ++ (if i + 1 < 10 then "0" ++ toString (i + 1) else toString (i + 1)))

/-- is_ewf_files from src/utils.py: all input paths, lower-cased, end in
one of the EWF extensions. -/
def is_ewf_files (input_files : List InputFile) : Bool :=
  input_files.all
    (fun f => ewfExtensions.any (fun ext => pyEndsWith (pyToLower f.path) ext))

/-! ### Path helpers (os.path.basename, os.path.splitext) -/

/-- os.path.basename: the part after the last slash. -/
def pyBasename (p : String) : String :=
  ((p.toList.reverse.takeWhile (· ≠ '/')).reverse).asString

/-- The extension part of os.path.splitext, including the dot; empty when
the basename has no dot after its leading dots. -/
def pySplitextExt (p : String) : String :=
  let b := (pyBasename p).toList
  let lead := b.takeWhile (· = '.')
  let rest := b.drop lead.length
  let revRest := rest.reverse
  let ext := revRest.takeWhile (· ≠ '.')
  if ext.length = revRest.length then "" else ('.' :: ext.reverse).asString

/-! ### The polling loop bodies of the three tasks

Each tick of a polling loop observes the status file as an optional
content string (none when os.path.exists is false). A tick either skips
(continue before the sleep: no emission and no sleep), or emits one
progress event and then sleeps for the fixed interval, or - at the
log2timeline call site only, which has no try/except - propagates the
parse exception. -/

/-- Payload of one send_event("task-progress", data=...) call: data={} or
data=the parsed status dict. -/
inductive EventData where
  | empty : EventData
  | status : StatusDict → EventData
deriving DecidableEq

/-- The loop body of src/psort.py lines 136-146: a missing file skips the
tick entirely; otherwise the parse is wrapped in try/except with
status_dict = {} as the fallback, an event is always sent, and the loop
sleeps 2 seconds. The Nat component is the seconds slept on the tick. -/
def psortPollTick (content : Option String) : Option (EventData × Nat) :=
  match content with
  | none => none
  | some s =>
    match log2timeline_status_to_dict s with
    | some d => some (EventData.status d, 2)
    | none => some (EventData.empty, 2)

/-- The loop body of src/image_export.py lines 113-124: identical shape
to the psort loop body, also sleeping 2 seconds. -/
def imageExportPollTick (content : Option String) : Option (EventData × Nat) :=
  match content with
  | none => none
  | some s =>
    match log2timeline_status_to_dict s with
    | some d => some (EventData.status d, 2)
    | none => some (EventData.empty, 2)

/-- The loop body of src/log2timeline.py lines 229-235: a missing file
skips the tick; the parser call is not wrapped, so a parse failure
propagates out of the loop as an uncaught ValueError; on success an event
is sent and the loop sleeps 3 seconds. -/
def log2timelinePollTick (content : Option String) : Except String (Option (EventData × Nat)) :=
  match content with
  | none => Except.ok none
  | some s =>
    match log2timeline_status_to_dict s with
    | none => Except.error "ValueError: invalid literal for int() with base 10"
    | some d => Except.ok (some (EventData.status d, 3))

/-- Seconds slept by a total (psort / image_export style) tick. -/
def tickSleep (r : Option (EventData × Nat)) : Nat :=
  match r with
  | none => 0
  | some (_, n) => n

/-- Seconds slept by a log2timeline tick; an error tick sleeps nothing. -/
def tickSleepE (r : Except String (Option (EventData × Nat))) : Nat :=
  match r with
  | Except.error _ => 0
  | Except.ok o => tickSleep o

/-- The events emitted over a run of a total polling loop, given the
sequence of status-file observations at the liveness polls. -/
def pollEventsTotal (tick : Option String → Option (EventData × Nat)) :
    List (Option String) → List EventData
  | [] => []
  | c :: rest =>
    match tick c with
    | none => pollEventsTotal tick rest
    | some (e, _) => e :: pollEventsTotal tick rest

/-- The events emitted over the log2timeline polling loop; a parse
failure on any tick aborts the loop and the whole task. -/
def log2timelinePollEvents : List (Option String) → Except String (List EventData)
  | [] => Except.ok []
  | c :: rest =>
    match log2timelinePollTick c with
    | Except.error e => Except.error e
    | Except.ok none => log2timelinePollEvents rest
    | Except.ok (some (e, _)) =>
      match log2timelinePollEvents rest with
      | Except.error err => Except.error err
      | Except.ok es => Except.ok (e :: es)

/-! ### Task envelopes and subprocess oracles -/

/-- An output file entry created by the external create_output_file
helper (an opaque allocator from the point of view of this worker). -/
structure OutputFile where
  path : String
  display_name : String
  data_type : String
deriving DecidableEq

/-- The metadata block built by the log2timeline task. -/
structure L2tMeta where
  plaso_version : String
  plaso_storage_version : String
  event_counters : List (String × Int)
deriving DecidableEq

/-- The result envelope handed to create_task_result / task_result. -/
structure TaskResult where
  output_files : List OutputFile
  workflow_id : String
  command : String
  meta : Option L2tMeta
deriving DecidableEq

/-- Everything observable from one completed task invocation: the result
envelope, the argument vectors handed to subprocess.Popen in order, the
progress events sent, and the records written to the logger. -/
structure TaskTrace where
  result : TaskResult
  spawned : List (List String)
  events : List EventData
  logs : List (Nat × String)
deriving DecidableEq

/-- One external subprocess run as observed by the supervising task: the
status-file observations at each liveness poll while the process was
alive, the exit code, and the captured output streams. -/
structure SubprocessRun where
  ticks : List (Option String)
  exitCode : Int
  stdout : String
  stderr : String
deriving DecidableEq

/-! ### The psort task (src/psort.py)

Effects are passed as oracles: alloc gives the path of the n-th output
slot allocated by create_output_file during the invocation, and runs
gives the subprocess run observed for the i-th input file. The i-th
iteration allocates slots 2*i (the output file) and 2*i+1 (the status
file). -/

/-- Truthiness of task_config.get("output_format"): an absent config, an
absent key and an empty string all fall back to "csv". -/
def psortOutputExtension (fmt? : Option String) : String :=
  match fmt? with
  | some fmt => if fmt = "" then "csv" else fmt
  | none => "csv"

/-- The psort argument vector of src/psort.py lines 111-125. -/
def psortCommand (statusPath outPath : String) (fmt? : Option String) (inputPath : String) :
    List String :=
  ["psort.py", "--quiet", "--status-view", "file", "--additional_fields", "yara_match",
    "--status-view-file", statusPath, "-w", outPath]
  ++ (match fmt? with
      | some fmt => if fmt = "" then [] else ["-o", fmt]
      | none => [])
  ++ [inputPath]

/-- The output file created for the i-th input file of a psort run. -/
def psortOutputFor (alloc : Nat → String) (ext : String) (i : Nat) (f : InputFile) :
    OutputFile :=
  ⟨alloc (2 * i), f.display_name ++ "." ++ ext, "plaso:psort:" ++ ext⟩

/-- Loop state of the psort per-input loop: the local variables
output_file and command_string as last assigned, plus the accumulated
observable effects. -/
structure PsortAcc where
  lastOut : Option OutputFile
  cmdStr : String
  spawned : List (List String)
  events : List EventData
  logs : List (Nat × String)
deriving DecidableEq

/-- The per-input loop of src/psort.py lines 103-149. Each iteration
creates the output and status files, builds and records the command,
sends an initial empty event, polls the status file while the process
runs, then logs stdout at INFO and replays stderr through the
classifier. -/
def psortLoop (alloc : Nat → String) (ext : String) (fmt? : Option String)
    (runs : Nat → SubprocessRun) : List InputFile → Nat → PsortAcc → PsortAcc
  | [], _, acc => acc
  | f :: rest, i, acc =>
    let outFile := psortOutputFor alloc ext i f
    let cmd := psortCommand (alloc (2 * i + 1)) outFile.path fmt? f.path
    psortLoop alloc ext fmt? runs rest (i + 1)
      { lastOut := some outFile
        cmdStr := joinSpace cmd
        spawned := acc.spawned ++ [cmd]
        events := acc.events ++ (EventData.empty :: pollEventsTotal psortPollTick (runs i).ticks)
        logs := acc.logs ++ ((20, (runs i).stdout) :: process_plaso_cli_logs (runs i).stderr) }

/-- The psort task of src/psort.py: after the loop, the single to_dict of
the last assigned output_file is appended to output_files and the
envelope is assembled; with an empty input list the name output_file was
never bound and the append raises. -/
def psort (input_files : List InputFile) (fmt? : Option String) (alloc : Nat → String)
    (workflow_id : String) (runs : Nat → SubprocessRun) : Except String TaskTrace :=
  let ext := psortOutputExtension fmt?
  let acc := psortLoop alloc ext fmt? runs input_files 0 ⟨none, "", [], [], []⟩
  match acc.lastOut with
  | none => Except.error "UnboundLocalError: local variable output_file referenced before assignment"
  | some of =>
    Except.ok ⟨⟨[of], workflow_id, acc.cmdStr, none⟩, acc.spawned, acc.events, acc.logs⟩

/-! ### The log2timeline task (src/log2timeline.py)

Oracles: alloc for the output-slot paths (slot 0 the plaso storage
output file, slot 1 the status file, slot 2 the yara rules file when
that branch runs), tempPlasoPath for the NamedTemporaryFile name,
tempDirName for the scratch hard-link directory, ewfBase for the uuid
base name of EWF links, and the pinfo-derived storage metadata, all
produced by external collaborators. -/

/-- The truthy task_config values of the log2timeline task; an absent
dict is none, and an empty list or string is falsy like an absent key. -/
structure L2tConfig where
  artifacts : List String
  parsers : List String
  archives : List String
  yara_rules : String
deriving DecidableEq

/-- The fixed head of the log2timeline argument vector (lines 152-166). -/
def log2timelineBaseCommand (statusPath tempPlasoPath : String) : List String :=
  ["log2timeline.py", "--quiet", "--unattended", "--partitions", "all", "--volumes", "all",
    "--status-view", "file", "--status-view-file", statusPath, "--storage-file", tempPlasoPath]

/-- The optional flags appended for a truthy task_config (lines 168-185). -/
def log2timelineCfgOptions (cfg : Option L2tConfig) (yaraPath : String) : List String :=
  (match cfg with
    | some c => if c.artifacts ≠ [] then ["--artifact_filters", commaJoin c.artifacts] else []
    | none => [])
  ++ (match cfg with
      | some c => if c.parsers ≠ [] then ["--parsers", commaJoin c.parsers] else []
      | none => [])
  ++ (match cfg with
      | some c => if c.archives ≠ [] then ["--archives", commaJoin c.archives] else []
      | none => [])
  ++ (match cfg with
      | some c => if c.yara_rules ≠ "" then ["--yara_rules", yaraPath] else []
      | none => [])

/-- The positional input argument of lines 191-218. More than one input
file goes through the hard-link directory; for all-EWF inputs the links
are renamed onto a common base name and the .e01 link must exist,
otherwise a RuntimeError is raised. A single input file contributes its
own path; an empty list hits input_files[0] and raises IndexError. -/
def log2timelineInputArg (input_files : List InputFile) (tempDirName ewfBase : String) :
    Except String (List String) :=
  if input_files.length > 1 then
    if is_ewf_files input_files then
      let linkNames := input_files.map (fun f => pyToLower (ewfBase ++ pySplitextExt f.path))
      if linkNames.contains (ewfBase ++ ".e01") then
        Except.ok [tempDirName ++ "/" ++ ewfBase ++ ".e01"]
      else Except.error "RuntimeError: Expected EWF file does not exist."
    else Except.ok [tempDirName]
  else
    match input_files with
    | [] => Except.error "IndexError: list index out of range"
    | f :: _ => Except.ok [f.path]

/-- The log2timeline task of src/log2timeline.py lines 108-268. The
output file is declared before the run (display name from the single
input file, or extension-based for several); the command line is built,
one empty progress event precedes the spawn, the polling loop runs (and
can propagate a parse error), the captured streams are logged, the pinfo
metadata is read from the storage file by an external collaborator, and
the envelope is assembled with the single declared output artifact. The
subprocess exit code is never read. -/
def log2timeline (input_files : List InputFile) (cfg : Option L2tConfig)
    (alloc : Nat → String) (tempPlasoPath tempDirName ewfBase workflow_id : String)
    (run : SubprocessRun) (storageVersion : String) (storageCounters : List (String × Int))
    (plasoVersion : String) : Except String TaskTrace :=
  let output_file :=
    if input_files.length = 1 then
      OutputFile.mk (alloc 0)
        ((input_files.headD ⟨"", ""⟩).display_name ++ ".plaso")
        "plaso:log2timeline:plaso_storage"
    else
      OutputFile.mk (alloc 0) (alloc 0 ++ ".plaso") "plaso:log2timeline:plaso_storage"
  let command := log2timelineBaseCommand (alloc 1) tempPlasoPath
    ++ log2timelineCfgOptions cfg (alloc 2)
  match log2timelineInputArg input_files tempDirName ewfBase with
  | Except.error e => Except.error e
  | Except.ok inputArgs =>
    let command := command ++ inputArgs
    let command_string := joinSpace command
    match log2timelinePollEvents run.ticks with
    | Except.error e => Except.error e
    | Except.ok events =>
      Except.ok
        ⟨⟨[output_file], workflow_id, command_string,
            some ⟨plasoVersion, storageVersion, storageCounters⟩⟩,
          [command], EventData.empty :: events,
          (20, run.stdout) :: process_plaso_cli_logs run.stderr⟩

/-! ### The artifact_extract task (src/image_export.py)

Oracles: alloc for output-slot paths (slot 2*i the log file and 2*i+1
the status file of the i-th input), dirs for the fresh export directory
of the i-th input, runs for the subprocess runs, and extracted for the
recursive file scan of a directory after the subprocess has exited. -/

/-- The image_export argument vector of src/image_export.py lines
93-108. -/
def imageExportCommand (logPath exportDir artifacts inputPath : String) : List String :=
  ["image_export.py", "--no-hashes", "--logfile", logPath, "--write", exportDir,
    "--partitions", "all", "--volumes", "all", "--unattended",
    "--artifact_filters", artifacts, inputPath]

/-- Loop state of the artifact_extract per-input loop: the local
variables export_directory and command_string (none while unbound), the
spawned commands and the emitted events. -/
structure AeAcc where
  exportDir : Option String
  cmdStr : Option String
  spawned : List (List String)
  events : List EventData
deriving DecidableEq

/-- The per-input loop of src/image_export.py lines 81-124. Note that
command_string is assigned " ".join(command[:5]), only the first five
arguments, and that the subprocess is spawned without stream capture. -/
def artifactExtractLoop (alloc : Nat → String) (dirs : Nat → String) (artifacts : String)
    (runs : Nat → SubprocessRun) : List InputFile → Nat → AeAcc → AeAcc
  | [], _, acc => acc
  | f :: rest, i, acc =>
    let cmd := imageExportCommand (alloc (2 * i)) (dirs i) artifacts f.path
    artifactExtractLoop alloc dirs artifacts runs rest (i + 1)
      { exportDir := some (dirs i)
        cmdStr := some (joinSpace (cmd.take 5))
        spawned := acc.spawned ++ [cmd]
        events := acc.events ++ pollEventsTotal imageExportPollTick (runs i).ticks }

/-- The artifact_extract task of src/image_export.py lines 58-154: after
the loop, only the last export directory is scanned; every discovered
file is wrapped as one artifact; an empty artifact list raises
RuntimeError before any envelope is produced; with an empty input list
the name export_directory was never bound and Path(export_directory)
raises. Discovered-file wrapping by the external create_output_file
helper is modelled as using the scanned name directly. -/
def artifact_extract (input_files : List InputFile) (artifacts : String)
    (alloc : Nat → String) (dirs : Nat → String) (runs : Nat → SubprocessRun)
    (extracted : String → List String) (workflow_id : String) : Except String TaskTrace :=
  let acc := artifactExtractLoop alloc dirs artifacts runs input_files 0 ⟨none, none, [], []⟩
  match acc.exportDir, acc.cmdStr with
  | some ed, some cs =>
    let output_files := (extracted ed).map (fun name => OutputFile.mk name name "")
    if output_files = [] then
      Except.error "RuntimeError: image_export didn't create any output files"
    else Except.ok ⟨⟨output_files, workflow_id, cs, none⟩, acc.spawned, acc.events, []⟩
  | _, _ => Except.error "NameError: name export_directory is not defined"

/-! ### Projections over task outcomes -/

/-- True unless the outcome is a success envelope with an empty artifact
list. -/
def noEmptySuccess (r : Except String TaskTrace) : Bool :=
  match r with
  | Except.ok t => !t.result.output_files.isEmpty
  | Except.error _ => true

/-- The command field of the result envelope, when the task succeeded. -/
def envelopeCommand (r : Except String TaskTrace) : Option String :=
  r.toOption.map (fun t => t.result.command)

/-- The space-joined full argument vector of the last spawned subprocess,
when the task succeeded. -/
def lastSpawnJoined (r : Except String TaskTrace) : Option String :=
  r.toOption.map (fun t => joinSpace (t.spawned.getLastD []))

/-- The space-joined first five arguments of the last spawned subprocess,
when the task succeeded. -/
def lastSpawnHeadJoined (r : Except String TaskTrace) : Option String :=
  r.toOption.map (fun t => joinSpace ((t.spawned.getLastD []).take 5))

/-! ### Sanity checks of the embedding on the test vectors of the spec
and of the repository test suite -/

example : log2timeline_status_to_dict "Processing foo: 3 bar: 7"
    = some ⟨[("foo", 3), ("bar", 7)]⟩ := by decide

example : log2timeline_status_to_dict "Processing foo: 3 bar:"
    = some ⟨[("foo", 3)]⟩ := by decide

example : log2timeline_status_to_dict "Processing foo: bar" = none := by decide

example : process_plaso_cli_logs "[INFO] Starting process\n[WARNING] Low disk space"
    = [(20, "Starting process"), (30, "Low disk space")] := by decide

example : process_plaso_cli_logs "[ERROR] Database failure\n  at line 50\n  at line 52"
    = [(40, "Database failure"), (40, "  at line 50"), (40, "  at line 52")] := by decide

example : process_plaso_cli_logs "[UNKNOWNLEVEL] This should be info"
    = [(20, "This should be info")] := by decide

example : process_plaso_cli_logs "   \n\n" = [] := by decide

example : is_ewf_files [⟨"/path/to/image.E01", "a"⟩, ⟨"/path/to/image.e02", "b"⟩] = true := by
  decide

example : is_ewf_files [⟨"/path/to/image.e01", "a"⟩, ⟨"/path/to/doc.txt", "b"⟩] = false := by
  decide

example : pySplitextExt "/a/b/image.e01" = ".e01" := by decide

example : pySplitextExt "/a/.bashrc" = "" := by decide

/-! ### Supporting lemmas on the status parser -/

theorem everyOther_cons_drop (b : α) (l : List α) :
    everyOther (b :: l) = b :: everyOther (l.drop 1) := by
  cases l <;> simp [everyOther]

theorem statusPairs_nil : statusPairs [] = [] := rfl

theorem statusPairs_single (a : String) : statusPairs [a] = [] := rfl

theorem statusPairs_cons_cons (a b : String) (l : List String) :
    statusPairs (a :: b :: l) = (a, b) :: statusPairs l := by
  simp [statusPairs, everyOther, everyOther_cons_drop]

theorem everyOther_interleave (l : List (String × String)) :
    everyOther (interleavePairs l) = l.map Prod.fst := by
  induction l with
  | nil => rfl
  | cons p rest ih => simp [interleavePairs, everyOther, ih]

theorem everyOther_interleave_drop (l : List (String × String)) :
    everyOther ((interleavePairs l).drop 1) = l.map Prod.snd := by
  induction l with
  | nil => rfl
  | cons p rest ih =>
    simp only [interleavePairs, List.drop_succ_cons, List.drop_zero, everyOther_cons_drop,
      List.map_cons]
    cases rest with
    | nil => rfl
    | cons q t => simpa [interleavePairs, everyOther_cons_drop] using ih

theorem statusPairs_interleave (l : List (String × String)) :
    statusPairs (interleavePairs l) = l := by
  unfold statusPairs
  rw [everyOther_interleave, everyOther_interleave_drop, List.zip_map']
  simp

theorem statusPairs_odd :
    ∀ l : List String, l.length % 2 = 1 → statusPairs l = statusPairs l.dropLast
  | [], h => by simp at h
  | [a], _ => by simp [statusPairs_single, statusPairs_nil]
  | a :: b :: rest, h => by
    have hr : rest.length % 2 = 1 := by
      simp only [List.length_cons] at h
      omega
    cases rest with
    | nil => simp at hr
    | cons c r =>
      have ih := statusPairs_odd (c :: r) hr
      simp only [statusPairs_cons_cons, List.dropLast_cons₂, ih]

theorem dictInsert_not_mem (d : List (String × Int)) (k : String) (v : Int)
    (h : k ∉ d.map Prod.fst) : dictInsert d k v = d ++ [(k, v)] := by
  induction d with
  | nil => rfl
  | cons p rest ih =>
    simp only [List.map_cons, List.mem_cons] at h
    push_neg at h
    simp only [dictInsert]
    rw [if_neg (Ne.symm h.1), ih h.2]
    simp

theorem insertPairs_ok :
    ∀ (l : List StatusItem) (d : List (String × Int)),
      (∀ it ∈ l, pyInt? it.valTok = some it.value) →
      (∀ it ∈ l, statusItemKey it ∉ d.map Prod.fst) →
      (l.map statusItemKey).Nodup →
      insertPairs d (statusItemTokens l) = some (d ++ statusItemEntries l)
  | [], d, _, _, _ => by simp [statusItemTokens, statusItemEntries, insertPairs]
  | it :: rest, d, hvals, hfresh, hnodup => by
    have hv : pyInt? it.valTok = some it.value := hvals it (List.mem_cons_self it rest)
    have hkey : statusItemKey it ∉ d.map Prod.fst :=
      hfresh it (List.mem_cons_self it rest)
    simp only [statusItemKey] at hkey
    simp only [statusItemTokens, List.map_cons, insertPairs, hv]
    rw [dictInsert_not_mem d _ _ hkey]
    simp only [List.map_cons, List.nodup_cons] at hnodup
    have ih := insertPairs_ok rest (d ++ [(statusItemKey it, it.value)])
      (fun x hx => hvals x (List.mem_cons_of_mem it hx))
      (by
        intro x hx
        simp only [List.map_append, List.mem_append, List.map_cons, List.map_nil,
          List.mem_singleton]
        rintro (hin | hk)
        · exact hfresh x (List.mem_cons_of_mem it hx) hin
        · exact hnodup.1 (hk ▸ List.mem_map_of_mem statusItemKey hx))
      hnodup.2
    rw [show statusItemTokens rest = rest.map (fun x => (x.nameTok, x.valTok)) from rfl] at ih
    simp only [statusItemKey] at ih
    rw [ih]
    simp [statusItemEntries, statusItemKey]

/-! ### Claim C5 -/

/-- Claim C5: for every well-formed status text consisting of a header
token followed by alternating name and base-10 integer tokens (with
distinct normalized names), the status parser returns a mapping whose
single key "tasks" maps each name, lower-cased and colon-stripped, to its
integer value. -/
theorem claim5_status_parse (text header : String) (items : List StatusItem)
    (htok : pySplitWs text = header :: interleavePairs (statusItemTokens items))
    (hvals : ∀ it ∈ items, pyInt? it.valTok = some it.value)
    (hnodup : (items.map statusItemKey).Nodup) :
    log2timeline_status_to_dict text = some ⟨statusItemEntries items⟩ := by
  unfold log2timeline_status_to_dict parseStatusTokens
  rw [htok]
  simp only [List.drop_succ_cons, List.drop_zero]
  rw [statusPairs_interleave, insertPairs_ok items [] hvals (by simp) hnodup]
  simp

/-- Witness for C5 at the example of the spec: parsing
"Processing foo: 3 bar: 7" yields the tasks mapping foo to 3 and bar
to 7. -/
theorem claim5_status_parse_witness :
    log2timeline_status_to_dict "Processing foo: 3 bar: 7"
      = some ⟨[("foo", 3), ("bar", 7)]⟩ := by
  have h := claim5_status_parse "Processing foo: 3 bar: 7" "Processing"
    [⟨"foo:", "3", 3⟩, ⟨"bar:", "7", 7⟩] (by decide) (by decide) (by decide)
  rw [h]
  decide

/-! ### Claim C7 -/

/-- Claim C7: for every status text whose token count after the discarded
header token is odd, the parser silently drops the trailing unpaired
token: the parse result equals the parse of the same token list without
its last token, and the unpaired token raises no error. -/
theorem claim7_odd_token (text : String)
    (h : ((pySplitWs text).drop 1).length % 2 = 1) :
    log2timeline_status_to_dict text
      = parseStatusTokens ((pySplitWs text).drop 1).dropLast := by
  unfold log2timeline_status_to_dict parseStatusTokens
  rw [statusPairs_odd _ h]

/-- Witness for C7: "Processing foo: 3 bar:" has three tokens after the
header; the trailing "bar:" is dropped and the complete pair still
parses. -/
theorem claim7_odd_token_witness :
    ((pySplitWs "Processing foo: 3 bar:").drop 1).length % 2 = 1 ∧
      log2timeline_status_to_dict "Processing foo: 3 bar:" = some ⟨[("foo", 3)]⟩ := by
  constructor
  · decide
  · rw [claim7_odd_token "Processing foo: 3 bar:" (by decide)]
    decide

/-! ### Claim C6 -/

/-- Claim C6: when the log classifier matches a bracketed header whose
level name does not map to a known severity, the carried current severity
is left unchanged from its prior value, and the line is still emitted as
one record whose message is the text after the bracket. -/
theorem claim6_unknown_tag (line : String) (rest : List String) (cur : Nat)
    (lvl msg : String)
    (hne : pyRstrip line ≠ "")
    (hm : matchHeader (pyRstrip line).toList = some (lvl, msg))
    (hunk : getLevelNum (pyToUpper lvl) = none) :
    classifyLines (line :: rest) cur = (cur, msg) :: classifyLines rest cur := by
  simp only [classifyLines]
  rw [if_neg hne, hm]
  simp [hunk]

/-- Witness for C6 at the example of the spec: a first-line unknown tag
emits exactly once at the initial INFO level with the text after the
bracket as the message. -/
theorem claim6_unknown_tag_witness :
    process_plaso_cli_logs "[UNKNOWNLEVEL] This should be info"
      = [(20, "This should be info")] := by
  have h := claim6_unknown_tag "[UNKNOWNLEVEL] This should be info" [] 20
    "UNKNOWNLEVEL" "This should be info" (by decide) (by decide) (by decide)
  unfold process_plaso_cli_logs
  rw [show pySplitlines "[UNKNOWNLEVEL] This should be info"
    = ["[UNKNOWNLEVEL] This should be info"] from by decide]
  rw [h]
  rfl

/-! ### Claim C3 (corrected) -/

/-- Counterexample to C3 as stated: not every polling-loop call site of
the status parser downgrades a parse failure; the log2timeline loop body
propagates the parse exception on a malformed snapshot. -/
theorem claim3_counterexample :
    log2timelinePollTick (some "Processing foo: bar")
      = Except.error "ValueError: invalid literal for int() with base 10" := by
  simp only [log2timelinePollTick,
    show log2timeline_status_to_dict "Processing foo: bar" = none from by decide]

/-- Claim C3 amended: at the psort and image_export call sites a parse
failure on a malformed status snapshot is downgraded to an empty progress
event and a normal tick; at the log2timeline call site, which has no
try/except, the parse exception propagates and aborts the supervising
task. -/
theorem claim3_parse_failure_handling (s : String)
    (hbad : log2timeline_status_to_dict s = none) :
    psortPollTick (some s) = some (EventData.empty, 2) ∧
      imageExportPollTick (some s) = some (EventData.empty, 2) ∧
      log2timelinePollTick (some s)
        = Except.error "ValueError: invalid literal for int() with base 10" := by
  refine ⟨?_, ?_, ?_⟩ <;> simp [psortPollTick, imageExportPollTick, log2timelinePollTick, hbad]

/-- Witness for the amended C3 at the malformed snapshot
"Processing foo: bar". -/
theorem claim3_parse_failure_handling_witness :
    psortPollTick (some "Processing foo: bar") = some (EventData.empty, 2) ∧
      imageExportPollTick (some "Processing foo: bar") = some (EventData.empty, 2) ∧
      log2timelinePollTick (some "Processing foo: bar")
        = Except.error "ValueError: invalid literal for int() with base 10" :=
  claim3_parse_failure_handling "Processing foo: bar" (by decide)

/-! ### Claim C4 (corrected) -/

/-- Counterexample to C4 as stated: on a tick where the status file does
not yet exist, none of the three polling-loop bodies sleeps at all (the
continue statement skips the sleep call), so the loop busy-spins rather
than sleeping a bounded interval on every iteration. -/
theorem claim4_counterexample :
    tickSleep (psortPollTick none) = 0 ∧
      tickSleep (imageExportPollTick none) = 0 ∧
      tickSleepE (log2timelinePollTick none) = 0 := by
  decide

/-- Claim C4 amended: a tick on which the status file does not exist is
skipped with no emission and no error but also with no sleep, so the loop
busy-spins until the file appears or the process exits; on a tick where
the file exists, the loop body emits one event and sleeps the fixed
interval (two seconds for psort and image_export, three for log2timeline
when the snapshot parses). -/
theorem claim4_tick_sleep :
    (psortPollTick none = none ∧ imageExportPollTick none = none ∧
        log2timelinePollTick none = Except.ok none) ∧
      (∀ s : String, tickSleep (psortPollTick (some s)) = 2) ∧
      (∀ s : String, tickSleep (imageExportPollTick (some s)) = 2) ∧
      (∀ (s : String) (d : StatusDict), log2timeline_status_to_dict s = some d →
        log2timelinePollTick (some s) = Except.ok (some (EventData.status d, 3))) := by
  refine ⟨⟨rfl, rfl, rfl⟩, ?_, ?_, ?_⟩
  · intro s
    unfold psortPollTick tickSleep
    rcases h : log2timeline_status_to_dict s with _ | d <;> simp [h]
  · intro s
    unfold imageExportPollTick tickSleep
    rcases h : log2timeline_status_to_dict s with _ | d <;> simp [h]
  · intro s d h
    simp [log2timelinePollTick, h]

/-- Witness for the amended C4 at a concrete parsable snapshot. -/
theorem claim4_tick_sleep_witness :
    tickSleep (psortPollTick (some "Processing a: 1")) = 2 ∧
      log2timelinePollTick (some "Processing a: 1")
        = Except.ok (some (EventData.status ⟨[("a", 1)]⟩, 3)) :=
  ⟨claim4_tick_sleep.2.1 "Processing a: 1",
    claim4_tick_sleep.2.2.2 "Processing a: 1" ⟨[("a", 1)]⟩ (by decide)⟩

/-! ### Claim C10 -/

/-- Claim C10: invoking the log2timeline task with an empty input-file
list raises an uncaught IndexError while building the command line, for
every configuration and every subprocess oracle - so the failure is
decided before any subprocess behaviour can be observed and before any
result envelope is produced; a non-empty input list is a precondition of
the task. -/
theorem claim10_empty_input (cfg : Option L2tConfig) (alloc : Nat → String)
    (tempPlasoPath tempDirName ewfBase workflow_id : String) (run : SubprocessRun)
    (storageVersion : String) (storageCounters : List (String × Int))
    (plasoVersion : String) :
    log2timeline [] cfg alloc tempPlasoPath tempDirName ewfBase workflow_id run
        storageVersion storageCounters plasoVersion
      = Except.error "IndexError: list index out of range" := rfl

/-! ### Claim C9 -/

theorem psortLoop_append (alloc : Nat → String) (ext : String) (fmt? : Option String)
    (runs : Nat → SubprocessRun) :
    ∀ (l : List InputFile) (f : InputFile) (i : Nat) (acc : PsortAcc),
      (psortLoop alloc ext fmt? runs (l ++ [f]) i acc).lastOut
          = some (psortOutputFor alloc ext (i + l.length) f) ∧
        (psortLoop alloc ext fmt? runs (l ++ [f]) i acc).cmdStr
          = joinSpace (psortCommand (alloc (2 * (i + l.length) + 1))
              (alloc (2 * (i + l.length))) fmt? f.path)
  | [], f, i, acc => by
    simp [psortLoop, psortOutputFor]
  | g :: l, f, i, acc => by
    have ih := psortLoop_append alloc ext fmt? runs l f (i + 1)
    simp only [List.cons_append, psortLoop, List.append_eq, List.length_cons]
    constructor
    · rw [(ih _).1]
      congr 2
      omega
    · rw [(ih _).2]
      congr 3
      · congr 1
        omega
      · congr 1
        omega

/-- Claim C9: for every invocation of the psort task with a non-empty
input-file list, the returned result envelope contains exactly one output
artifact, the one created for the last input file; artifacts created for
earlier input files are never included in the envelope. -/
theorem claim9_psort_last_output (l : List InputFile) (f : InputFile)
    (fmt? : Option String) (alloc : Nat → String) (workflow_id : String)
    (runs : Nat → SubprocessRun) :
    ∃ t : TaskTrace,
      psort (l ++ [f]) fmt? alloc workflow_id runs = Except.ok t ∧
        t.result.output_files
          = [psortOutputFor alloc (psortOutputExtension fmt?) l.length f] := by
  have h := (psortLoop_append alloc (psortOutputExtension fmt?) fmt? runs l f 0
    ⟨none, "", [], [], []⟩).1
  rw [Nat.zero_add] at h
  simp only [psort]
  rw [h]
  exact ⟨_, rfl, rfl⟩

/-! ### Claim C1 (corrected) -/

/-- Counterexample to C1 as stated: a task invocation whose subprocess
exits with code 1 still produces a success result envelope; no fatal
failure carrying the exit code is reported, for the log2timeline task and
for the psort task alike. -/
theorem claim1_counterexample :
    (log2timeline [⟨"/in.dd", "in"⟩] none (fun _ => "p") "t" "d" "e" "w"
        ⟨[], 1, "", ""⟩ "20240101" [] "v").isOk = true ∧
      (psort [⟨"/in.plaso", "in"⟩] none (fun _ => "p") "w"
        (fun _ => ⟨[], 1, "", ""⟩)).isOk = true :=
  ⟨rfl, rfl⟩

theorem psortLoop_runs_congr (alloc : Nat → String) (ext : String) (fmt? : Option String)
    (runs₁ runs₂ : Nat → SubprocessRun)
    (h : ∀ i, (runs₁ i).ticks = (runs₂ i).ticks ∧ (runs₁ i).stdout = (runs₂ i).stdout ∧
      (runs₁ i).stderr = (runs₂ i).stderr) :
    ∀ (l : List InputFile) (i : Nat) (acc : PsortAcc),
      psortLoop alloc ext fmt? runs₁ l i acc = psortLoop alloc ext fmt? runs₂ l i acc
  | [], _, _ => rfl
  | f :: rest, i, acc => by
    simp only [psortLoop]
    rw [(h i).1, (h i).2.1, (h i).2.2]
    exact psortLoop_runs_congr alloc ext fmt? runs₁ runs₂ h rest (i + 1) _

/-- Claim C1 amended: neither task ever inspects the subprocess exit
code - the task outcome is identical for any two subprocess behaviours
that agree on the polled status snapshots and the captured streams but
differ arbitrarily in exit code. A run whose subprocess exits non-zero
therefore proceeds to result assembly exactly as a zero-exit run does,
and no failure carrying the exit code is ever reported. -/
theorem claim1_exit_code_ignored :
    (∀ (input_files : List InputFile) (cfg : Option L2tConfig) (alloc : Nat → String)
        (tempPlasoPath tempDirName ewfBase workflow_id : String)
        (r₁ r₂ : SubprocessRun) (storageVersion : String)
        (storageCounters : List (String × Int)) (plasoVersion : String),
      r₁.ticks = r₂.ticks → r₁.stdout = r₂.stdout → r₁.stderr = r₂.stderr →
        log2timeline input_files cfg alloc tempPlasoPath tempDirName ewfBase workflow_id
            r₁ storageVersion storageCounters plasoVersion
          = log2timeline input_files cfg alloc tempPlasoPath tempDirName ewfBase workflow_id
            r₂ storageVersion storageCounters plasoVersion) ∧
      (∀ (input_files : List InputFile) (fmt? : Option String) (alloc : Nat → String)
          (workflow_id : String) (runs₁ runs₂ : Nat → SubprocessRun),
        (∀ i, (runs₁ i).ticks = (runs₂ i).ticks ∧ (runs₁ i).stdout = (runs₂ i).stdout ∧
          (runs₁ i).stderr = (runs₂ i).stderr) →
          psort input_files fmt? alloc workflow_id runs₁
            = psort input_files fmt? alloc workflow_id runs₂) := by
  constructor
  · intro input_files cfg alloc tpp tdn eb wf r₁ r₂ sv sc pv h1 h2 h3
    rcases r₁ with ⟨t₁, e₁, o₁, s₁⟩
    rcases r₂ with ⟨t₂, e₂, o₂, s₂⟩
    simp only at h1 h2 h3
    subst h1; subst h2; subst h3
    rfl
  · intro input_files fmt? alloc wf runs₁ runs₂ h
    simp only [psort]
    rw [psortLoop_runs_congr alloc (psortOutputExtension fmt?) fmt? runs₁ runs₂ h]

/-- Witness for the amended C1: two concrete runs differing only in exit
code (0 versus 1) give identical task outcomes for both tasks. -/
theorem claim1_exit_code_ignored_witness :
    log2timeline [⟨"/in.dd", "in"⟩] none (fun _ => "p") "t" "d" "e" "w"
        ⟨[], 0, "", ""⟩ "20240101" [] "v"
      = log2timeline [⟨"/in.dd", "in"⟩] none (fun _ => "p") "t" "d" "e" "w"
        ⟨[], 1, "", ""⟩ "20240101" [] "v" ∧
      psort [⟨"/in.plaso", "in"⟩] none (fun _ => "p") "w" (fun _ => ⟨[], 0, "", ""⟩)
        = psort [⟨"/in.plaso", "in"⟩] none (fun _ => "p") "w" (fun _ => ⟨[], 1, "", ""⟩) :=
  ⟨claim1_exit_code_ignored.1 _ _ _ _ _ _ _ _ _ _ _ _ rfl rfl rfl,
    claim1_exit_code_ignored.2 _ _ _ _ _ _ (fun _ => ⟨rfl, rfl, rfl⟩)⟩

/-! ### Claim C2 -/

theorem aeLoop_some (alloc dirs : Nat → String) (artifacts : String)
    (runs : Nat → SubprocessRun) :
    ∀ (l : List InputFile) (i : Nat) (acc : AeAcc),
      acc.exportDir.isSome = true → acc.cmdStr.isSome = true →
        (artifactExtractLoop alloc dirs artifacts runs l i acc).exportDir.isSome = true ∧
          (artifactExtractLoop alloc dirs artifacts runs l i acc).cmdStr.isSome = true
  | [], _, acc, h1, h2 => ⟨h1, h2⟩
  | f :: rest, i, acc, _, _ => by
    simp only [artifactExtractLoop]
    exact aeLoop_some alloc dirs artifacts runs rest (i + 1) _ rfl rfl

/-- Claim C2: a run that discovers or declares zero output artifacts is
never reported as a success with an empty artifact list. In the
artifact_extract task every success envelope carries at least one
artifact, and a run whose directory scan finds nothing raises the
"no outputs" RuntimeError; the log2timeline task always declares exactly
one output artifact before the run, so its success envelopes are never
empty either. -/
theorem claim2_no_empty_success :
    (∀ (input_files : List InputFile) (artifacts : String) (alloc dirs : Nat → String)
        (runs : Nat → SubprocessRun) (extracted : String → List String)
        (workflow_id : String),
      noEmptySuccess (artifact_extract input_files artifacts alloc dirs runs extracted
        workflow_id) = true) ∧
      (∀ (f : InputFile) (rest : List InputFile) (artifacts : String)
          (alloc dirs : Nat → String) (runs : Nat → SubprocessRun) (workflow_id : String),
        artifact_extract (f :: rest) artifacts alloc dirs runs (fun _ => []) workflow_id
          = Except.error "RuntimeError: image_export didn't create any output files") ∧
      (∀ (input_files : List InputFile) (cfg : Option L2tConfig) (alloc : Nat → String)
          (tempPlasoPath tempDirName ewfBase workflow_id : String) (run : SubprocessRun)
          (storageVersion : String) (storageCounters : List (String × Int))
          (plasoVersion : String),
        noEmptySuccess (log2timeline input_files cfg alloc tempPlasoPath tempDirName
          ewfBase workflow_id run storageVersion storageCounters plasoVersion) = true) := by
  refine ⟨?_, ?_, ?_⟩
  · intro input_files artifacts alloc dirs runs extracted workflow_id
    simp only [artifact_extract]
    split
    · split
      · rfl
      · rename_i houts
        simp [noEmptySuccess, houts]
    · rfl
  · intro f rest artifacts alloc dirs runs workflow_id
    have h := aeLoop_some alloc dirs artifacts runs rest 1
      ⟨some (dirs 0), some (joinSpace ((imageExportCommand (alloc 0) (dirs 0) artifacts
        f.path).take 5)), [] ++ [imageExportCommand (alloc 0) (dirs 0) artifacts f.path],
        [] ++ pollEventsTotal imageExportPollTick ((runs 0).ticks)⟩ rfl rfl
    obtain ⟨ed, hed⟩ := Option.isSome_iff_exists.mp h.1
    obtain ⟨cs, hcs⟩ := Option.isSome_iff_exists.mp h.2
    simp only [artifact_extract, artifactExtractLoop]
    rw [hed, hcs]
    simp
  · intro input_files cfg alloc tpp tdn eb wf run sv sc pv
    simp only [log2timeline]
    split
    · rfl
    · split
      · rfl
      · rfl

/-! ### Claim C8 (corrected) -/

/-- Counterexample to C8 as stated: a concrete artifact_extract
invocation produces a success envelope whose command field is only the
first five tokens of the executed command line, not the exact complete
command line handed to the subprocess. -/
theorem claim8_counterexample :
    envelopeCommand (artifact_extract [⟨"/in.dd", "in"⟩] "A" (fun _ => "p") (fun _ => "d")
        (fun _ => ⟨[], 0, "", ""⟩) (fun _ => ["x"]) "w")
      ≠ lastSpawnJoined (artifact_extract [⟨"/in.dd", "in"⟩] "A" (fun _ => "p")
        (fun _ => "d") (fun _ => ⟨[], 0, "", ""⟩) (fun _ => ["x"]) "w") ∧
      envelopeCommand (artifact_extract [⟨"/in.dd", "in"⟩] "A" (fun _ => "p")
        (fun _ => "d") (fun _ => ⟨[], 0, "", ""⟩) (fun _ => ["x"]) "w")
        = some "image_export.py --no-hashes --logfile p --write" := by
  constructor
  · decide
  · rfl

theorem aeLoop_cmd_inv (alloc dirs : Nat → String) (artifacts : String)
    (runs : Nat → SubprocessRun) :
    ∀ (l : List InputFile) (i : Nat) (acc : AeAcc),
      (∀ cs, acc.cmdStr = some cs →
        cs = joinSpace ((acc.spawned.getLastD []).take 5)) →
      ∀ cs, (artifactExtractLoop alloc dirs artifacts runs l i acc).cmdStr = some cs →
        cs = joinSpace
          (((artifactExtractLoop alloc dirs artifacts runs l i acc).spawned.getLastD []).take 5)
  | [], _, acc, hinv, cs, hcs => hinv cs hcs
  | f :: rest, i, acc, _, cs, hcs => by
    revert hcs
    simp only [artifactExtractLoop]
    refine aeLoop_cmd_inv alloc dirs artifacts runs rest (i + 1) _ ?_ cs
    intro c hc
    simp only [Option.some.injEq] at hc
    subst hc
    simp

theorem psortLoop_cmd_inv (alloc : Nat → String) (ext : String) (fmt? : Option String)
    (runs : Nat → SubprocessRun) :
    ∀ (l : List InputFile) (i : Nat) (acc : PsortAcc),
      acc.cmdStr = joinSpace (acc.spawned.getLastD []) →
        (psortLoop alloc ext fmt? runs l i acc).cmdStr
          = joinSpace ((psortLoop alloc ext fmt? runs l i acc).spawned.getLastD [])
  | [], _, _, hinv => hinv
  | f :: rest, i, acc, _ => by
    simp only [psortLoop]
    refine psortLoop_cmd_inv alloc ext fmt? runs rest (i + 1) _ ?_
    simp

/-- Claim C8 amended: for the log2timeline and psort tasks the command
field of the result envelope is the exact space-joined argument vector of
the (last) executed subprocess; for the artifact_extract task it is only
the first five arguments of the last executed command line. -/
theorem claim8_command_field :
    (∀ (input_files : List InputFile) (cfg : Option L2tConfig) (alloc : Nat → String)
        (tempPlasoPath tempDirName ewfBase workflow_id : String) (run : SubprocessRun)
        (storageVersion : String) (storageCounters : List (String × Int))
        (plasoVersion : String),
      envelopeCommand (log2timeline input_files cfg alloc tempPlasoPath tempDirName
          ewfBase workflow_id run storageVersion storageCounters plasoVersion)
        = lastSpawnJoined (log2timeline input_files cfg alloc tempPlasoPath tempDirName
          ewfBase workflow_id run storageVersion storageCounters plasoVersion)) ∧
      (∀ (input_files : List InputFile) (fmt? : Option String) (alloc : Nat → String)
          (workflow_id : String) (runs : Nat → SubprocessRun),
        envelopeCommand (psort input_files fmt? alloc workflow_id runs)
          = lastSpawnJoined (psort input_files fmt? alloc workflow_id runs)) ∧
      (∀ (input_files : List InputFile) (artifacts : String) (alloc dirs : Nat → String)
          (runs : Nat → SubprocessRun) (extracted : String → List String)
          (workflow_id : String),
        envelopeCommand (artifact_extract input_files artifacts alloc dirs runs extracted
            workflow_id)
          = lastSpawnHeadJoined (artifact_extract input_files artifacts alloc dirs runs
            extracted workflow_id)) := by
  refine ⟨?_, ?_, ?_⟩
  · intro input_files cfg alloc tpp tdn eb wf run sv sc pv
    simp only [log2timeline]
    split
    · rfl
    · split
      · rfl
      · simp [envelopeCommand, lastSpawnJoined, Except.toOption]
  · intro input_files fmt? alloc wf runs
    have h := psortLoop_cmd_inv alloc (psortOutputExtension fmt?) fmt? runs input_files 0
      ⟨none, "", [], [], []⟩ rfl
    simp only [psort]
    rcases hlo : (psortLoop alloc (psortOutputExtension fmt?) fmt? runs input_files 0
      ⟨none, "", [], [], []⟩).lastOut with _ | of
    · simp [hlo, envelopeCommand, lastSpawnJoined, Except.toOption]
    · simp [hlo, envelopeCommand, lastSpawnJoined, Except.toOption, h]
  · intro input_files artifacts alloc dirs runs extracted workflow_id
    have h := aeLoop_cmd_inv alloc dirs artifacts runs input_files 0
      ⟨none, none, [], []⟩ (fun cs hcs => by simp at hcs)
    simp only [artifact_extract]
    rcases hed : (artifactExtractLoop alloc dirs artifacts runs input_files 0
      ⟨none, none, [], []⟩).exportDir with _ | ed
    · simp [hed, envelopeCommand, lastSpawnHeadJoined, Except.toOption]
    · rcases hcs : (artifactExtractLoop alloc dirs artifacts runs input_files 0
        ⟨none, none, [], []⟩).cmdStr with _ | cs
      · simp [hed, hcs, envelopeCommand, lastSpawnHeadJoined, Except.toOption]
      · simp only [hed, hcs]
        split
        · rfl
        · simp [envelopeCommand, lastSpawnHeadJoined, Except.toOption, h cs hcs]

end PlasoWorker
